import Mathlib

set_option maxHeartbeats 1000000
set_option autoImplicit false

/-!
Shallow embedding of the SDFormatter repository: the terminal formatter
(`sdFormatterTerminal-English.py`, with the Italian variant where it differs)
and the Qt GUI worker (`sdFormatterGUI.py`).

Modelling conventions:
- Python strings are Lean `String`s; the relevant Python string methods
  (`strip`, `upper`, `lower`, `replace`, `split`, slicing, `re.sub` with the
  character classes used by the source) are modelled character-wise over
  `List Char` on ASCII code points.
- External effects (PowerShell commands issued through `subprocess`, file
  I/O of the optional I/O test) are abstracted behind an executor that maps
  each issued command to an exit code / stdout / stderr triple; in addition
  to the Python return value, each modelled function returns the list of
  commands it actually spawned.  Disk enumeration is modelled at the parsed
  JSON-record granularity (the executor directly provides the normalized
  disk records that `list_disks` would build), except for the dry-run
  behaviour of `ps_json`, which is preserved: under `dry_run` the stub
  `CompletedProcess` has empty stdout, `ps_json` yields `[]`, and
  `list_disks` therefore returns the empty list.
- `float` division `bytes_size / (1024**3)` compared against the small
  integer thresholds 4, 8, 16, 32, 64 and 256 is exact for every integer
  byte count that matters (the quotient is a dyadic rational whose nearest
  double rounds to ≤ t only when the exact value is ≤ t), so the size
  thresholds are stated directly in bytes.
- Wall-clock fields (`duration_sec`), logging, UAC elevation and the Qt
  progress/cancellation channel are not modelled (the cancellation flag of
  the GUI worker is never set within a single undisturbed run).
-/

/-- ASCII whitespace recognized by Python `str.strip()` and the regex `\s`:
space, tab, newline, carriage return, vertical tab, form feed. -/
def wsB (c : Char) : Bool :=
  decide (c.toNat = 32) || decide (c.toNat = 9) || decide (c.toNat = 10) ||
  decide (c.toNat = 13) || decide (c.toNat = 11) || decide (c.toNat = 12)

/-- Strip characters satisfying `p` from the left (Python `lstrip`). -/
def stripL (p : Char → Bool) (l : List Char) : List Char := l.dropWhile p

/-- Strip characters satisfying `p` from the right (Python `rstrip`). -/
def stripR (p : Char → Bool) (l : List Char) : List Char :=
  (l.reverse.dropWhile p).reverse

/-- Strip characters satisfying `p` from both ends (Python `str.strip`). -/
def stripB (p : Char → Bool) (l : List Char) : List Char := stripR p (stripL p l)

/-- Python `s.strip()` on a whole string. -/
def pyStrip (s : String) : String := ⟨stripB wsB s.data⟩

/-- Python `re.sub(r"\s+", " ", s)`: replace each maximal run of whitespace
with a single space. -/
def collapseWs : List Char → List Char
  | [] => []
  | [c] => if wsB c then [Char.ofNat 32] else [c]
  | c1 :: c2 :: rest =>
    if wsB c1 && wsB c2 then collapseWs (c2 :: rest)
    else (if wsB c1 then Char.ofNat 32 else c1) :: collapseWs (c2 :: rest)

/-- Python `str.upper()` on one ASCII character. -/
def upC (c : Char) : Char :=
  if decide (97 ≤ c.toNat) && decide (c.toNat ≤ 122) then Char.ofNat (c.toNat - 32) else c

/-- Python `str.lower()` on one ASCII character. -/
def lowC (c : Char) : Char :=
  if decide (65 ≤ c.toNat) && decide (c.toNat ≤ 90) then Char.ofNat (c.toNat + 32) else c

/-- Python `s.upper()` on a whole string. -/
def pyUpper (s : String) : String := ⟨s.data.map upC⟩

/-- Python `s.lower()` on a whole string. -/
def pyLower (s : String) : String := ⟨s.data.map lowC⟩

/-- Characters of the camera-compatible label class `[A-Z0-9 _]`
(`sanitize_label`, camera branch). -/
def camOk (c : Char) : Bool :=
  (decide (65 ≤ c.toNat) && decide (c.toNat ≤ 90)) ||
  (decide (48 ≤ c.toNat) && decide (c.toNat ≤ 57)) ||
  decide (c.toNat = 32) || decide (c.toNat = 95)

/-- The reserved Windows label characters `INVALID_LABEL_CHARS`, i.e. the
set of code points of the raw string of characters less-than, greater-than,
colon, double quote, slash, backslash, pipe, question mark, star. -/
def invalidLabelChar (c : Char) : Bool :=
  decide (c.toNat = 60) || decide (c.toNat = 62) || decide (c.toNat = 58) ||
  decide (c.toNat = 34) || decide (c.toNat = 47) || decide (c.toNat = 92) ||
  decide (c.toNat = 124) || decide (c.toNat = 63) || decide (c.toNat = 42)

/-- Characters kept by the general branch of `sanitize_label`:
printable ASCII (`32 ≤ ord c < 127`) and not reserved. -/
def genOk (c : Char) : Bool :=
  decide (32 ≤ c.toNat) && decide (c.toNat < 127) && !invalidLabelChar c

/-- Dot or space, the strip set of `base.strip(". ")`. -/
def dotSpB (c : Char) : Bool := decide (c.toNat = 46) || decide (c.toNat = 32)

/-- Single or double quote, removed by
`raw.replace("'", "").replace('"', "")`. -/
def quoteB (c : Char) : Bool := decide (c.toNat = 39) || decide (c.toNat = 34)

/-- The fallback label `"SD_CARD"` as a character list. -/
def sdCard : List Char := "SD_CARD".data

/-- `sanitize_label` of `sdFormatterTerminal-English.py` (lines 248-261) on
character lists.  The `fs` parameter of the source is unused by its body and
is therefore not a parameter here; `sanitize_label` below restores the
source signature. -/
def sanitizeL (label : List Char) (camera_compat : Bool) : List Char :=
  let raw := stripB wsB label
  let raw := raw.filter (fun c => !quoteB c)
  if camera_compat then
    let base := raw.map (fun c => let u := upC c; if camOk u then u else Char.ofNat 95)
    let base := stripB wsB (collapseWs base)
    let base := base.take 11
    if base = [] then sdCard else base
  else
    let base := raw.filter genOk
    let base := (stripB dotSpB base).take 32
    if base = [] then sdCard else base

/-- `sanitize_label(label, fs, camera_compat)` of the English terminal
variant.  `fs` is accepted and ignored exactly as in the source. -/
def sanitize_label (label : String) (fs : String) (camera_compat : Bool) : String :=
  let _ := fs
  ⟨sanitizeL label.data camera_compat⟩

/-- `suggest_fs` (English lines 219-221, Italian lines 209-211):
`"FAT32" if bytes_size / 1024**3 <= 32 else "exFAT"`. -/
def suggest_fs (bytes_size : Nat) : String :=
  if bytes_size ≤ 32 * 1024 * 1024 * 1024 then "FAT32" else "exFAT"

/-- `suggest_cluster` (English lines 223-240, Italian lines 213-230). -/
def suggest_cluster (fs : String) (bytes_size : Nat) : Nat :=
  if pyUpper fs = "FAT32" then
    if bytes_size ≤ 4 * 1024 * 1024 * 1024 then 4096
    else if bytes_size ≤ 8 * 1024 * 1024 * 1024 then 8192
    else if bytes_size ≤ 16 * 1024 * 1024 * 1024 then 16384
    else 32768
  else
    if bytes_size ≤ 64 * 1024 * 1024 * 1024 then 131072
    else if bytes_size ≤ 256 * 1024 * 1024 * 1024 then 262144
    else 524288

/-- A normalized disk record as built by `list_disks` (English lines
168-181): the parsed fields of one `Get-Disk` entry plus the mounted drive
letters.  The `partitions` payload is opaque to every claim and omitted. -/
structure DiskRecord where
  number : Nat
  size : Nat
  bus_type : String := ""
  friendly_name : String := ""
  is_system : Bool := false
  is_boot : Bool := false
  is_readonly : Bool := false
  is_offline : Bool := false
  unique_id : String := ""
  partition_style : String := ""
  letters : List String := []
deriving DecidableEq

/-- `ensure_safe_target` of `sdFormatterTerminal-English.py` (lines 402-408).
Raised exceptions are modelled as `Except.error` with the message text.
Note `if disk["size"] and ...`: a zero (unknown) size is falsy, so the
64 MiB floor only applies when the size is nonzero. -/
def ensure_safe_target (disk : DiskRecord) : Except String Unit :=
  if disk.is_system || disk.is_boot then
    Except.error "Safety lock: selected disk appears to be a system/boot disk."
  else if disk.is_readonly then
    Except.error "The disk is read-only. Disable write protection and try again."
  else if decide (disk.size ≠ 0) && decide (disk.size < 64 * 1024 * 1024) then
    Except.error "Disk is too small to format (less than 64 MB)."
  else Except.ok ()

/-- `ensure_safe_target` of `sdFormatterTerminal-Italian.py` (lines 363-368):
only the system/boot and read-only checks; there is no size floor. -/
def ensure_safe_target_it (disk : DiskRecord) : Except String Unit :=
  if disk.is_system || disk.is_boot then
    Except.error "Protezione attiva: il disco selezionato risulta di sistema/boot."
  else if disk.is_readonly then
    Except.error "Il disco è in sola lettura. Rimuovi l\x27interruttore di protezione scrittura e riprova."
  else Except.ok ()


/-- The PowerShell scripts issued by the formatting pipeline, one constructor
per `run_ps` call site, carrying the parameters interpolated into the script
text.  Read-only enumeration queries issued by `list_disks` are not part of
this type (they are modelled at the parsed-record granularity, see the module
comment). -/
inductive Cmd where
  | dismount (disk : Nat)
  | zeroFill (disk : Nat)
  | clearInit (disk : Nat) (style : String)
  | createFormat (disk : Nat) (fs : String) (label : String)
      (cluster : Option Nat) (quick : Bool)
  | verifyVol (drive_letter : String)
deriving DecidableEq

/-- Whether a command mutates the disk (everything except the post-format
volume inspection). -/
def Cmd.isMutating : Cmd → Bool
  | .verifyVol _ => false
  | _ => true

/-- Outcome of one spawned PowerShell process: the `returncode`, `stdout`
and `stderr` of the `CompletedProcess`. -/
structure PSOut where
  rc : Nat
  stdout : String
  stderr : String
deriving DecidableEq

/-- The external-command boundary: `disks` is the normalized result of the
enumeration queries of `list_disks`; `respond` gives the outcome of each
pipeline command; `ioResult` abstracts the file I/O of `test_io` (written
bytes validated against the on-disk size, message text). -/
structure Executor where
  disks : List DiskRecord
  respond : Cmd → PSOut
  ioResult : Bool × String := (true, "OK")

/-- `PSError(stderr or "PowerShell error")`: the message of the exception
raised by `run_ps` on a non-zero return code, where
`stderr = (p.stderr or "").strip()`. -/
def psErrMsg (stderr : String) : String :=
  let t := pyStrip stderr
  if t = "" then "PowerShell error" else t

/-- `run_ps` (English lines 104-120): under `dry_run` return a stub result
with return code 0 and empty output without spawning anything; otherwise
spawn the command and raise `PSError` on a non-zero return code.  The second
component is the list of commands actually spawned. -/
def run_ps (c : Cmd) (dry_run : Bool) (ex : Executor) :
    Except String PSOut × List Cmd :=
  if dry_run then (Except.ok ⟨0, "", ""⟩, [])
  else
    let o := ex.respond c
    if o.rc ≠ 0 then (Except.error (psErrMsg o.stderr), [c])
    else (Except.ok o, [c])

/-- `list_disks` (English lines 138-182) at the parsed-record granularity.
Under `dry_run` every `ps_json` call sees the empty stdout of the `run_ps`
stub and returns `[]`, so the function returns no disks at all. -/
def list_disks (ex : Executor) (dry_run : Bool) : List DiskRecord :=
  if dry_run then [] else ex.disks

/-- `dismount_volumes` (English lines 267-281): a single `run_ps` call; the
per-volume failures are suppressed inside the PowerShell script, but a
non-zero exit of the script itself raises `PSError` in Python. -/
def dismount_volumes (disk_number : Nat) (dry_run : Bool) (ex : Executor) :
    Except String PSOut × List Cmd :=
  run_ps (Cmd.dismount disk_number) dry_run ex

/-- `clear_and_init` (English lines 300-314): for wipe mode `"zero-all"`
first run the `diskpart clean all` script, then always run the
`Clear-Disk` / `Initialize-Disk` script. -/
def clear_and_init (disk_number : Nat) (style : String) (wipe : String)
    (dry_run : Bool) (ex : Executor) : Except String Unit × List Cmd :=
  if wipe = "zero-all" then
    match run_ps (Cmd.zeroFill disk_number) dry_run ex with
    | (Except.error e, t) => (Except.error e, t)
    | (Except.ok _, t1) =>
      match run_ps (Cmd.clearInit disk_number style) dry_run ex with
      | (Except.error e, t2) => (Except.error e, t1 ++ t2)
      | (Except.ok _, t2) => (Except.ok (), t1 ++ t2)
  else
    match run_ps (Cmd.clearInit disk_number style) dry_run ex with
    | (Except.error e, t) => (Except.error e, t)
    | (Except.ok _, t) => (Except.ok (), t)

/-- Split a character list at every separator satisfying `p` (Python
`str.split(sep)` semantics: `n` separators yield `n+1` fields, empty
fields preserved). -/
def splitCh (p : Char → Bool) : List Char → List (List Char)
  | [] => [[]]
  | c :: rest =>
    let r := splitCh p rest
    if p c then [] :: r
    else
      match r with
      | [] => [[c]]
      | h :: t => (c :: h) :: t

/-- Python `s.splitlines()` restricted to the use in
`create_partition_and_format`, where `s` is already stripped: the empty
string yields no lines, otherwise split at newline characters. -/
def pySplitLines (s : String) : List String :=
  if s = "" then []
  else (splitCh (fun c => decide (c.toNat = 10) || decide (c.toNat = 13)) s.data).map
    (fun l => ⟨l⟩)

/-- `(p.stdout or "").strip().splitlines()[-1].strip() if p.stdout else ""`
(English line 354).  Indexing `[-1]` of an empty line list raises
`IndexError("list index out of range")`. -/
def parseDriveLetter (stdout : String) : Except String String :=
  if stdout = "" then Except.ok ""
  else
    match (pySplitLines (pyStrip stdout)).getLast? with
    | none => Except.error "list index out of range"
    | some l => Except.ok (pyStrip l)

/-- `create_partition_and_format` (English lines 328-355): one `run_ps`
call, then the assigned drive letter is parsed from the last stdout line. -/
def create_partition_and_format (disk_number : Nat) (fs : String)
    (label : String) (cluster : Option Nat) (quick : Bool) (dry_run : Bool)
    (ex : Executor) : Except String String × List Cmd :=
  match run_ps (Cmd.createFormat disk_number fs label cluster quick) dry_run ex with
  | (Except.error e, t) => (Except.error e, t)
  | (Except.ok o, t) => (parseDriveLetter o.stdout, t)

/-- First component of Python `out.split("|", 1)`. -/
def beforePipe (l : List Char) : List Char := l.takeWhile (fun c => decide (c.toNat ≠ 124))

/-- Second component of Python `out.split("|", 1)`. -/
def afterPipe (l : List Char) : List Char :=
  (l.dropWhile (fun c => decide (c.toNat ≠ 124))).tail

/-- `verify_volume` (English lines 357-366): empty drive letter verifies
false without any command; otherwise query the volume and compare the
filesystem (case-insensitively) and the label (exactly). -/
def verify_volume (drive_letter : String) (expected_fs : String)
    (expected_label : String) (dry_run : Bool) (ex : Executor) :
    Except String Bool × List Cmd :=
  if drive_letter = "" then (Except.ok false, [])
  else
    match run_ps (Cmd.verifyVol drive_letter) dry_run ex with
    | (Except.error e, t) => (Except.error e, t)
    | (Except.ok o, t) =>
      let out := pyStrip o.stdout
      if out = "" || !(out.data.any (fun c => decide (c.toNat = 124))) then
        (Except.ok false, t)
      else
        let fsPart : String := ⟨beforePipe out.data⟩
        let labelPart : String := ⟨afterPipe out.data⟩
        (Except.ok (pyUpper fsPart = pyUpper expected_fs && labelPart = expected_label), t)

/-- `test_io` (English lines 368-396): dry-run and missing-drive-letter
short circuits from the source; the actual chunked file write, size check
and cleanup are file-system effects abstracted by `Executor.ioResult`. -/
def test_io (drive_letter : String) (dry_run : Bool) (ex : Executor) :
    Bool × String :=
  if dry_run then (true, "dry-run")
  else if drive_letter = "" then (false, "No drive letter available")
  else ex.ioResult

/-- The `--cluster` argument as seen by `run_format_pipeline`: absent,
`"AUTO"`, or an integer (kept as `Int` because the pipeline re-checks
positivity; `0` is falsy for the `if args.cluster:` guard). -/
inductive ClusterArg where
  | noneArg
  | autoArg
  | intArg (n : Int)
deriving DecidableEq

/-- The fields of `argparse.Namespace` read by `run_format_pipeline`.
`skip_verify` is read by the pipeline although the English CLI never
defines the flag (spec §9 open question); it is a request field here. -/
structure Args where
  disk : Nat
  label : String := ""
  fs : String := "AUTO"
  quick : Bool := true
  cluster : ClusterArg := ClusterArg.noneArg
  gpt : Bool := false
  camera_compat : Bool := false
  wipe : String := "metadata"
  test_io : Bool := false
  test_io_size : Nat := 8
  dry_run : Bool := false
  yes : Bool := false
  skip_verify : Bool := false
deriving DecidableEq

/-- Outcome record of the optional I/O test (`result["test_io"]`). -/
structure TestIoRec where
  ok : Bool
  message : String
  size_mb : Nat
deriving DecidableEq

/-- The `result` dict of `run_format_pipeline` (English lines 460-477 and
the fields added later).  `Option` fields model keys that may be absent;
`cluster = none` renders as `"DEFAULT"`.  `duration_sec` (wall clock) is
omitted. -/
structure PipelineResult where
  app : String := "SDFormatterPro"
  version : String := "1.0.0"
  disk : Nat
  size : Nat
  bus_type : String
  friendly_name : String
  unique_id : String
  fs : String
  style : String
  label : String
  cluster : Option Nat
  quick : Bool
  wipe : String
  camera_compat : Bool
  dry_run : Bool
  steps : List String
  drive_letter : Option String := none
  verify : Option String := none
  test_io : Option TestIoRec := none
  status : Option String := none
  error : Option String := none
deriving DecidableEq

/-- Filesystem selection of `run_format_pipeline` (English lines 417-420):
upper-case the request, substitute the suggestion for `"AUTO"`. -/
def resolve_fs (argFs : String) (size : Nat) : String :=
  let fs := pyUpper argFs
  if fs = "AUTO" then suggest_fs size else fs

/-- Cluster selection of `run_format_pipeline` (English lines 426-434):
`if args.cluster:` (falsy for absent and for the integer 0), `"AUTO"`
invokes `suggest_cluster`, a non-positive integer raises `ValueError`. -/
def resolveCluster (c : ClusterArg) (fs : String) (size : Nat) :
    Except String (Option Nat) :=
  match c with
  | ClusterArg.noneArg => Except.ok none
  | ClusterArg.autoArg => Except.ok (some (suggest_cluster fs size))
  | ClusterArg.intArg n =>
    if n = 0 then Except.ok none
    else if n ≤ 0 then Except.error "Cluster size must be a positive integer."
    else Except.ok (some n.toNat)

/-- Mark a caught exception on the partially populated result
(`result["status"] = "ERROR"; result["error"] = str(e)`). -/
def tryFail (r : PipelineResult) (e : String) : PipelineResult :=
  { r with status := some "ERROR", error := some e }

/-- `result["steps"].append(name)`. -/
def addStep (r : PipelineResult) (name : String) : PipelineResult :=
  { r with steps := r.steps ++ [name] }

/-- Tail of the `try` block (English lines 501-510): optional I/O test,
then `status = "OK"`. -/
def ioAndFinish (args : Args) (ex : Executor) (r : PipelineResult)
    (acc : List Cmd) : PipelineResult × List Cmd :=
  if args.test_io then
    let res := test_io (r.drive_letter.getD "") args.dry_run ex
    let r1 := { r with test_io := some ⟨res.1, res.2, args.test_io_size⟩ }
    if res.1 then ({ r1 with status := some "OK" }, acc)
    else (tryFail r1 ("I/O test failed: " ++ res.2), acc)
  else ({ r with status := some "OK" }, acc)

/-- The `try` block of `run_format_pipeline` (English lines 479-517): the
ordered steps, each appending its name on success; any raised error is
caught, recorded on the partially populated result, and the result is
returned rather than discarded. -/
def pipelineTry (args : Args) (ex : Executor) (n : Nat) (fs label : String)
    (cluster : Option Nat) (style : String) (r0 : PipelineResult) :
    PipelineResult × List Cmd :=
  match dismount_volumes n args.dry_run ex with
  | (Except.error e, t) => (tryFail r0 e, t)
  | (Except.ok _, tA) =>
    let r1 := addStep r0 "dismount_volumes"
    match clear_and_init n style args.wipe args.dry_run ex with
    | (Except.error e, t) => (tryFail r1 e, tA ++ t)
    | (Except.ok _, tB) =>
      let r2 := addStep r1 "clear_and_init"
      match create_partition_and_format n fs label cluster args.quick
          args.dry_run ex with
      | (Except.error e, t) => (tryFail r2 e, tA ++ tB ++ t)
      | (Except.ok dl, tC) =>
        let r3 := addStep { r2 with drive_letter := some dl }
            "create_partition_and_format"
        if args.skip_verify then ioAndFinish args ex r3 (tA ++ tB ++ tC)
        else
          match verify_volume dl fs label args.dry_run ex with
          | (Except.error e, t) => (tryFail r3 e, tA ++ tB ++ tC ++ t)
          | (Except.ok ok, tD) =>
            let r4 := { r3 with verify := some (if ok then "OK" else "FAILED") }
            if ok then ioAndFinish args ex r4 (tA ++ tB ++ tC ++ tD)
            else (tryFail r4 "Post-format verification failed.",
                  tA ++ tB ++ tC ++ tD)

/-- `run_format_pipeline` (English lines 410-517).  `confInput` is the line
read from the confirmation prompt when the run is not pre-authorized; the
returned trace lists the commands spawned.  Exceptions raised before the
`try` block (`ValueError`, `PermissionError`, `RuntimeError` on
confirmation mismatch) propagate to the caller as `Except.error`. -/
def run_format_pipeline (args : Args) (ex : Executor) (confInput : String) :
    Except String PipelineResult × List Cmd :=
  let disks := list_disks ex args.dry_run
  match disks.find? (fun d => d.number == args.disk) with
  | none => (Except.error ("Disk #" ++ toString args.disk ++ " not found."), [])
  | some target =>
    match ensure_safe_target target with
    | Except.error e => (Except.error e, [])
    | Except.ok _ =>
      let fs := resolve_fs args.fs target.size
      let label := sanitize_label args.label fs args.camera_compat
      match resolveCluster args.cluster fs target.size with
      | Except.error e => (Except.error e, [])
      | Except.ok cluster =>
        let style := if args.gpt then "GPT" else "MBR"
        if args.yes = false ∧ pyStrip confInput ≠ "CONFIRM-" ++ toString target.number then
          (Except.error "Confirmation mismatch. Operation cancelled.", [])
        else
          let r0 : PipelineResult :=
            { disk := target.number, size := target.size,
              bus_type := target.bus_type,
              friendly_name := target.friendly_name,
              unique_id := target.unique_id,
              fs := fs, style := style, label := label, cluster := cluster,
              quick := args.quick, wipe := args.wipe,
              camera_compat := args.camera_compat, dry_run := args.dry_run,
              steps := [] }
          let out := pipelineTry args ex target.number fs label cluster style r0
          (Except.ok out.1, out.2)

/-- The PowerShell commands issued by the GUI worker
(`FormatWorker._run_pipeline`, `sdFormatterGUI.py` lines 230-292), one
constructor per `run_powershell` call site. -/
inductive GCmd where
  | unlock (disk : Nat)
  | clearDeep (disk : Nat)
  | clearQuick (disk : Nat)
  | initMBR (disk : Nat)
  | newPartition (disk : Nat)
  | formatVol (drive_letter : String) (fs : String) (label : Option String)
      (cluster : Option Int) (full : Bool)
deriving DecidableEq

/-- Outcome of one `run_powershell` call in the GUI. -/
structure GOut where
  rc : Nat
  stdout : String
  stderr : String
deriving DecidableEq

/-- External-command boundary of the GUI worker. -/
structure GExec where
  respond : GCmd → GOut

/-- `cp.stderr.strip() or default`: the `RuntimeError` message raised by the
GUI worker on a non-zero return code. -/
def gErrMsg (stderr : String) (default : String) : String :=
  let t := pyStrip stderr
  if t = "" then default else t

/-- Python `int(s)` (`Optional` result: `None` on `ValueError`), for the
inputs reachable from the cluster combo labels: optional surrounding
whitespace, optional sign, decimal digits. -/
def pyInt (s : String) : Option Int :=
  let t := pyStrip s
  if t.startsWith "-" then (t.drop 1).toNat?.map (fun n => -(n : Int))
  else t.toNat?.map (fun n => (n : Int))

/-- Python `label.split()`: split on whitespace runs, dropping empties. -/
def pySplitWsList (s : String) : List String :=
  ((splitCh wsB s.data).map (fun l => (⟨l⟩ : String))).filter (fun t => t ≠ "")

/-- `cluster_bytes_from_label` (`sdFormatterGUI.py` lines 79-87): `None` for
labels starting with `"auto"` (case-insensitively), otherwise
`int(first word) * 1024`, `None` when parsing fails.  Indexing `[0]` of the
empty split raises `IndexError`. -/
def cluster_bytes_from_label (label : String) : Except String (Option Int) :=
  if (pyLower label).data.take 4 = "auto".data then Except.ok none
  else
    match pySplitWsList label with
    | [] => Except.error "list index out of range"
    | num :: _ => Except.ok ((pyInt num).map (fun n => n * 1024))

/-- Filesystem resolution of the GUI worker (`sdFormatterGUI.py` lines
194-218): upper-case the request, substitute `AUTO` from the disk size,
then force FAT32 for camera compatibility when the size is known and at
most 32 GiB. -/
def gui_fs_resolve (fs0 : String) (cam_compat : Bool) (size_bytes : Option Nat) :
    String :=
  let fs := pyUpper fs0
  let fs :=
    if fs = "AUTO" then
      match size_bytes with
      | some s => if s ≤ 32 * 1024 * 1024 * 1024 then "FAT32" else "exFAT"
      | none => "exFAT"
    else fs
  if cam_compat then
    match size_bytes with
    | some s => if s ≤ 32 * 1024 * 1024 * 1024 then "FAT32" else fs
    | none => fs
  else fs

/-- Cluster resolution of the GUI worker (`sdFormatterGUI.py` lines
214-221): camera compatibility forces 32 KiB unconditionally, otherwise the
combo label is parsed. -/
def gui_cluster_resolve (cam_compat : Bool) (cluster_label : String) :
    Except String (Option Int) :=
  if cam_compat then Except.ok (some (32 * 1024))
  else cluster_bytes_from_label cluster_label

/-- The policy-resolution prefix of `FormatWorker._run_pipeline`
(`sdFormatterGUI.py` lines 194-225), in source order: filesystem
resolution, camera/cluster resolution, then the FAT32 capacity guard
(which raises `RuntimeError` when the resolved filesystem is FAT32 and the
size is unknown or exceeds 32 GiB). -/
def gui_policy (fs0 : String) (cam_compat : Bool) (cluster_label : String)
    (size_bytes : Option Nat) : Except String (String × Option Int) :=
  let fs := gui_fs_resolve fs0 cam_compat size_bytes
  match gui_cluster_resolve cam_compat cluster_label with
  | Except.error e => Except.error e
  | Except.ok cb =>
    if fs = "FAT32" &&
        (match size_bytes with
         | none => true
         | some s => decide (32 * 1024 * 1024 * 1024 < s)) then
      Except.error "FAT32 selezionato ma la capacità supera 32 GB. Usa exFAT o AUTO."
    else Except.ok (fs, cb)

/-- The `args` dict read by `FormatWorker._run_pipeline`. -/
structure GArgs where
  dry_run : Bool := true
  disk : Nat
  label : String := ""
  fs : String := "AUTO"
  quick : Bool := true
  deep_clean : Bool := false
  cam_compat : Bool := false
  cluster_label : String := "Auto"
deriving DecidableEq

/-- The dict emitted through `finished` by the GUI worker (lines 296-303). -/
structure GResult where
  status : String
  disk : Nat
  fs : String
  label : String
  drive_letter : String
  dry_run : Bool
deriving DecidableEq

/-- Python `s.replace(":", "")`. -/
def dropColons (s : String) : String := ⟨s.data.filter (fun c => decide (c.toNat ≠ 58))⟩

/-- `FormatWorker._run_pipeline` (`sdFormatterGUI.py` lines 190-303).
`size_bytes` is the catalog lookup of lines 202-206 (already wrapped in
`try`, hence `Option`); the worker's exceptions surface as `Except.error`
(caught by `FormatWorker.run` and emitted on `failed`).  The trace lists
the commands actually issued; in dry-run mode no command is issued, the
drive letter is the placeholder `"Z"`, and the worker still finishes with
`status="OK"`. -/
def gui_run_pipeline (args : GArgs) (size_bytes : Option Nat) (ex : GExec) :
    Except String GResult × List GCmd :=
  match gui_policy args.fs args.cam_compat args.cluster_label size_bytes with
  | Except.error e => (Except.error e, [])
  | Except.ok (fs, cluster_bytes) =>
    if args.dry_run then
      (Except.ok ⟨"OK", args.disk, fs, args.label, "Z", true⟩, [])
    else
      let o1 := ex.respond (GCmd.unlock args.disk)
      if o1.rc ≠ 0 then
        (Except.error (gErrMsg o1.stderr "Impossibile sbloccare il disco."),
         [GCmd.unlock args.disk])
      else
        let cCmd := if args.deep_clean then GCmd.clearDeep args.disk
                    else GCmd.clearQuick args.disk
        let cMsg := if args.deep_clean then "Errore in Clear-Disk con rimozione dati."
                    else "Errore in Clear-Disk."
        let o2 := ex.respond cCmd
        if o2.rc ≠ 0 then
          (Except.error (gErrMsg o2.stderr cMsg), [GCmd.unlock args.disk, cCmd])
        else
          let o3 := ex.respond (GCmd.initMBR args.disk)
          if o3.rc ≠ 0 then
            (Except.error (gErrMsg o3.stderr "Errore in Initialize-Disk."),
             [GCmd.unlock args.disk, cCmd, GCmd.initMBR args.disk])
          else
            let o4 := ex.respond (GCmd.newPartition args.disk)
            if o4.rc ≠ 0 then
              (Except.error (gErrMsg o4.stderr "Errore in New-Partition."),
               [GCmd.unlock args.disk, cCmd, GCmd.initMBR args.disk,
                GCmd.newPartition args.disk])
            else
              let s0 := pyStrip o4.stdout
              let dl := dropColons (if s0 = "" then "X" else s0)
              if dl.length ≠ 1 then
                (Except.error ("Lettera unità non valida: \x27" ++ dl ++ "\x27"),
                 [GCmd.unlock args.disk, cCmd, GCmd.initMBR args.disk,
                  GCmd.newPartition args.disk])
              else
                let labelArg := if args.label = "" then none else some args.label
                let clArg := match cluster_bytes with
                             | none => none
                             | some n => if n = 0 then none else some n
                let fCmd := GCmd.formatVol dl fs labelArg clArg (!args.quick)
                let o5 := ex.respond fCmd
                if o5.rc ≠ 0 then
                  (Except.error (gErrMsg o5.stderr "Errore in Format-Volume."),
                   [GCmd.unlock args.disk, cCmd, GCmd.initMBR args.disk,
                    GCmd.newPartition args.disk, fCmd])
                else
                  (Except.ok ⟨"OK", args.disk, fs, args.label, dl, false⟩,
                   [GCmd.unlock args.disk, cCmd, GCmd.initMBR args.disk,
                    GCmd.newPartition args.disk, fCmd])

/-! ### Concrete fixtures for the scenario theorems -/

/-- A 32 GB (decimal byte count) USB disk, number 3, with no safety flags,
as in the spec scenario of §8. -/
def disk3 : DiskRecord :=
  { number := 3, size := 32000000000, bus_type := "USB", friendly_name := "SD Card" }

/-- A 64 GB (decimal byte count) USB disk, number 3. -/
def disk3big : DiskRecord :=
  { number := 3, size := 64000000000, bus_type := "USB", friendly_name := "SDXC" }

/-- A 16 GiB USB disk, number 3. -/
def disk3mid : DiskRecord :=
  { number := 3, size := 17179869184, bus_type := "USB", friendly_name := "SDHC" }

/-- A 32 MiB disk with all safety flags clear: below the 64 MiB floor. -/
def diskTiny : DiskRecord :=
  { number := 7, size := 33554432, bus_type := "USB", friendly_name := "Old card" }

/-- A benign executor response: partition creation reports drive letter
`"E"`, volume inspection reports `verifyOut`, everything exits 0. -/
def fakeRespond (verifyOut : String) : Cmd → PSOut
  | Cmd.createFormat _ _ _ _ _ => ⟨0, "E", ""⟩
  | Cmd.verifyVol _ => ⟨0, verifyOut, ""⟩
  | _ => ⟨0, "", ""⟩

/-- Executor for the §8 end-to-end scenario: disk 3 of 32 GB, drive letter
`"E"`, verification output matching `FAT32` / `SD_CARD`. -/
def c6exec : Executor := { disks := [disk3], respond := fakeRespond "FAT32|SD_CARD" }

/-- The §8 end-to-end request `{disk:3, fs:AUTO, cameraCompat:true,
wipe:"metadata", quick:true}` (pre-authorized, no label given). -/
def c6args : Args :=
  { disk := 3, fs := "AUTO", camera_compat := true, wipe := "metadata",
    quick := true, yes := true }

/-- Executor owning the 64 GB disk, verification output matching
`FAT32` / `DATA`. -/
def c4exec : Executor := { disks := [disk3big], respond := fakeRespond "FAT32|DATA" }

/-- A pre-authorized explicit-FAT32 request against disk 3. -/
def c4args : Args := { disk := 3, label := "DATA", fs := "FAT32", yes := true }

/-- Executor owning the 16 GiB disk, verification output matching
`exFAT` / `GOPRO`. -/
def c5exec : Executor := { disks := [disk3mid], respond := fakeRespond "exFAT|GOPRO" }

/-- A pre-authorized camera-compatible request that explicitly asks for
exFAT on the 16 GiB disk. -/
def c5args : Args :=
  { disk := 3, label := "GOPRO", fs := "exFAT", camera_compat := true, yes := true }

/-- Executor whose dismount script exits 1 with stderr `"Access is denied"`;
everything else succeeds. -/
def dismountFailRespond : Cmd → PSOut
  | Cmd.dismount _ => ⟨1, "", "Access is denied"⟩
  | _ => ⟨0, "", ""⟩

/-- Executor for the failing-dismount scenario. -/
def c7exec : Executor := { disks := [disk3], respond := dismountFailRespond }

/-- A pre-authorized default request against disk 3. -/
def c7args : Args := { disk := 3, label := "DATA", yes := true }

/-- A non-pre-authorized request against disk 3. -/
def c2args : Args := { disk := 3, label := "DATA", yes := false }

/-- A pre-authorized dry-run request against disk 3. -/
def c3args : Args := { disk := 3, label := "DATA", yes := true, dry_run := true }

/-! ### C1: the safety gate -/

/-- C1 counterexample: the Italian variant's `ensure_safe_target` accepts a
32 MiB disk (below the 64 MiB floor) whose three safety flags are all
false, so the claim's "rejects when the size is known and below 64 MiB"
fails on the cited Italian symbol. -/
theorem ensure_safe_target_it_accepts_tiny_disk :
    ensure_safe_target_it diskTiny = Except.ok () ∧
    diskTiny.size ≠ 0 ∧ diskTiny.size < 64 * 1024 * 1024 ∧
    diskTiny.is_system = false ∧ diskTiny.is_boot = false ∧
    diskTiny.is_readonly = false :=
  ⟨rfl, by decide, by decide, rfl, rfl, rfl⟩

/-- C1 amended: the English `ensure_safe_target` accepts a disk record
exactly when all three safety flags are false and the size is unknown
(zero) or at least 64 MiB; the Italian variant checks only the three flags
and accepts any size. -/
theorem ensure_safe_target_characterization (d : DiskRecord) :
    (ensure_safe_target d = Except.ok () ↔
      d.is_system = false ∧ d.is_boot = false ∧ d.is_readonly = false ∧
      (d.size = 0 ∨ 64 * 1024 * 1024 ≤ d.size)) ∧
    (ensure_safe_target_it d = Except.ok () ↔
      d.is_system = false ∧ d.is_boot = false ∧ d.is_readonly = false) := by
  unfold ensure_safe_target ensure_safe_target_it
  cases hs : d.is_system <;> cases hb : d.is_boot <;>
    cases hr : d.is_readonly <;> (simp [hs, hb, hr]; try omega)

/-! ### C10: the exFAT cluster schedule -/

/-- C10: for every filesystem string whose upper-casing is not `"FAT32"`,
`suggest_cluster` returns the exFAT schedule: 128 KiB up to 64 GiB, 256 KiB
up to 256 GiB, 512 KiB beyond. -/
theorem suggest_cluster_exfat_schedule (fs : String) (bytes_size : Nat)
    (h : pyUpper fs ≠ "FAT32") :
    suggest_cluster fs bytes_size =
      if bytes_size ≤ 64 * 1024 * 1024 * 1024 then 131072
      else if bytes_size ≤ 256 * 1024 * 1024 * 1024 then 262144
      else 524288 := by
  unfold suggest_cluster
  simp [h]

/-- C10 witness: the schedule theorem applied to `"ntfs"` at three concrete
sizes straddling both thresholds. -/
theorem suggest_cluster_exfat_schedule_witness :
    pyUpper "ntfs" ≠ "FAT32" ∧
    (suggest_cluster "ntfs" 1000 =
      if (1000 : Nat) ≤ 64 * 1024 * 1024 * 1024 then 131072
      else if (1000 : Nat) ≤ 256 * 1024 * 1024 * 1024 then 262144
      else 524288) :=
  ⟨by decide, suggest_cluster_exfat_schedule "ntfs" 1000 (by decide)⟩

/-! ### C2: wrong confirmation token -/

/-- C2 counterexample: with the wrong token the pipeline does not return a
`PipelineResult` at all — the `RuntimeError` raised at line 456 propagates
(`Except.error`), was raised before the result dict is created, and no
command was spawned. -/
theorem confirmation_mismatch_returns_no_result :
    run_format_pipeline c2args c6exec "CONFIRM-4" =
      (Except.error "Confirmation mismatch. Operation cancelled.", []) := by
  rfl

/-- C2 amended: for every non-pre-authorized request whose (stripped)
confirmation input differs from `CONFIRM-<diskNumber>`, the run fails by
raising an exception before any command is spawned (empty trace, so the
target disk is untouched); no `PipelineResult` with `status=ERROR` is
produced — the error propagates to the caller. -/
theorem confirmation_mismatch_aborts_without_commands
    (args : Args) (ex : Executor) (confInput : String)
    (hyes : args.yes = false)
    (hconf : pyStrip confInput ≠ "CONFIRM-" ++ toString args.disk) :
    ∃ e, run_format_pipeline args ex confInput = (Except.error e, []) := by
  unfold run_format_pipeline
  dsimp only
  cases hfind : (list_disks ex args.dry_run).find? (fun d => d.number == args.disk) with
  | none => exact ⟨_, rfl⟩
  | some target =>
    have hnum : target.number = args.disk := by
      have := List.find?_some hfind
      simpa using this
    dsimp only
    cases hsafe : ensure_safe_target target with
    | error e => exact ⟨e, rfl⟩
    | ok u =>
      cases u
      dsimp only
      cases hcl : resolveCluster args.cluster (resolve_fs args.fs target.size)
          target.size with
      | error e => exact ⟨e, rfl⟩
      | ok cluster =>
        dsimp only
        rw [if_pos ⟨hyes, by rw [hnum]; exact hconf⟩]
        exact ⟨_, rfl⟩

/-- C2 witness: the amended theorem applied to the concrete
non-pre-authorized request with input `"CONFIRM-4"` against disk 3. -/
theorem confirmation_mismatch_aborts_without_commands_witness :
    c2args.yes = false ∧
    pyStrip "CONFIRM-4" ≠ "CONFIRM-" ++ toString c2args.disk ∧
    ∃ e, run_format_pipeline c2args c6exec "CONFIRM-4" = (Except.error e, []) :=
  ⟨rfl, by decide,
   confirmation_mismatch_aborts_without_commands c2args c6exec "CONFIRM-4" rfl (by decide)⟩

/-! ### C3: dry-run -/

/-- C3: under `dry_run` the stubbed `run_ps` yields empty stdout, `ps_json`
yields `[]`, `list_disks` returns no disks, and every dry run therefore
fails with `ValueError("Disk #<n> not found.")` before reaching the
pipeline — no command is spawned, but no `status=OK` result with the step
names exists either, contradicting the tool's documented dry-run preview. -/
theorem dry_run_always_disk_not_found (args : Args) (ex : Executor)
    (confInput : String) (h : args.dry_run = true) :
    run_format_pipeline args ex confInput =
      (Except.error ("Disk #" ++ toString args.disk ++ " not found."), []) := by
  unfold run_format_pipeline list_disks
  rw [h]
  rfl

/-- C3 witness: the dry-run theorem applied to the concrete pre-authorized
dry-run request against disk 3 and the benign executor. -/
theorem dry_run_always_disk_not_found_witness :
    c3args.dry_run = true ∧
    run_format_pipeline c3args c6exec "" =
      (Except.error ("Disk #" ++ toString c3args.disk ++ " not found."), []) :=
  ⟨rfl, dry_run_always_disk_not_found c3args c6exec "" rfl⟩

/-! ### C6: the end-to-end camera scenario -/

/-- The result actually produced by the §8 scenario run. -/
def c6expected : PipelineResult :=
  { disk := 3, size := 32000000000, bus_type := "USB",
    friendly_name := "SD Card", unique_id := "", fs := "FAT32",
    style := "MBR", label := "SD_CARD", cluster := none, quick := true,
    wipe := "metadata", camera_compat := true, dry_run := false,
    steps := ["dismount_volumes", "clear_and_init", "create_partition_and_format"],
    drive_letter := some "E", verify := some "OK", status := some "OK" }

/-- C6 counterexample: on the §8 scenario request the terminal pipeline
resolves `cluster` to `DEFAULT` (`none`), not 32768 — camera compatibility
does not touch the cluster there — and `"verify"` is never appended to
`steps`, so the claimed resolution and step list are both wrong. -/
theorem camera_scenario_cluster_and_steps_differ :
    (run_format_pipeline c6args c6exec "").1 = Except.ok c6expected ∧
    c6expected.cluster ≠ some 32768 ∧
    c6expected.steps ≠
      ["dismount_volumes", "clear_and_init", "create_partition_and_format", "verify"] :=
  ⟨rfl, by decide, by decide⟩

/-- C6 amended: the §8 scenario request resolves to `fs=FAT32`,
`cluster=DEFAULT` (none), `label="SD_CARD"`, and the run against the faked
executor (drive letter `"E"`, matching verify output) yields `status=OK`,
`steps=["dismount_volumes","clear_and_init","create_partition_and_format"]`
with the verification recorded as `verify="OK"` (never in `steps`), and
`driveLetter="E"`. -/
theorem camera_scenario_end_to_end :
    run_format_pipeline c6args c6exec "" =
      (Except.ok c6expected,
       [Cmd.dismount 3, Cmd.clearInit 3 "MBR",
        Cmd.createFormat 3 "FAT32" "SD_CARD" none true, Cmd.verifyVol "E"]) := by
  rfl

/-! ### C4: FAT32 over 32 GiB -/

/-- The result actually produced by the explicit-FAT32 run on the 64 GB
disk. -/
def c4expected : PipelineResult :=
  { disk := 3, size := 64000000000, bus_type := "USB",
    friendly_name := "SDXC", unique_id := "", fs := "FAT32", style := "MBR",
    label := "DATA", cluster := none, quick := true, wipe := "metadata",
    camera_compat := false, dry_run := false,
    steps := ["dismount_volumes", "clear_and_init", "create_partition_and_format"],
    drive_letter := some "E", verify := some "OK", status := some "OK" }

/-- C4 counterexample: the terminal pipeline performs no FAT32 capacity
re-validation at all — an explicit FAT32 request on a 64 GB disk raises no
`PolicyViolationError` and proceeds through every mutating step to
`status=OK`. -/
theorem fat32_oversize_not_rejected_by_terminal :
    run_format_pipeline c4args c4exec "" =
      (Except.ok c4expected,
       [Cmd.dismount 3, Cmd.clearInit 3 "MBR",
        Cmd.createFormat 3 "FAT32" "DATA" none true, Cmd.verifyVol "E"]) ∧
    32 * 1024 * 1024 * 1024 < disk3big.size ∧
    c4expected.fs = "FAT32" ∧ c4expected.status = some "OK" ∧
    (Cmd.clearInit 3 "MBR").isMutating = true :=
  ⟨rfl, by decide, rfl, rfl, rfl⟩

/-- C4 amended, GUI half: whenever the GUI worker's resolved filesystem is
FAT32 and the target size is unknown or exceeds 32 GiB (and the cluster
resolution itself does not raise), the worker fails with the FAT32
capacity `RuntimeError` before issuing any command.  In the GUI this runs
after the UI confirmation dialog, not before it. -/
theorem gui_fat32_oversize_rejected_before_commands
    (args : GArgs) (size_bytes : Option Nat) (ex : GExec) (cb : Option Int)
    (hfs : gui_fs_resolve args.fs args.cam_compat size_bytes = "FAT32")
    (hsize : ∀ s, size_bytes = some s → 32 * 1024 * 1024 * 1024 < s)
    (hcl : gui_cluster_resolve args.cam_compat args.cluster_label = Except.ok cb) :
    gui_run_pipeline args size_bytes ex =
      (Except.error "FAT32 selezionato ma la capacità supera 32 GB. Usa exFAT o AUTO.",
       []) := by
  have hpol : gui_policy args.fs args.cam_compat args.cluster_label size_bytes =
      Except.error "FAT32 selezionato ma la capacità supera 32 GB. Usa exFAT o AUTO." := by
    unfold gui_policy
    rw [hcl, hfs]
    dsimp only
    cases hsb : size_bytes with
    | none => rfl
    | some s =>
      have h32 := hsize s hsb
      simp [h32]
  unfold gui_run_pipeline
  rw [hpol]

/-- C4 witness: the GUI rejection theorem applied to an explicit FAT32
request with the spec's 64 GB size and the default cluster label. -/
theorem gui_fat32_oversize_rejected_before_commands_witness :
    gui_fs_resolve "FAT32" false (some 64000000000) = "FAT32" ∧
    (∀ s, (some 64000000000 : Option Nat) = some s → 32 * 1024 * 1024 * 1024 < s) ∧
    gui_cluster_resolve false "Auto" = Except.ok none ∧
    gui_run_pipeline { disk := 3, fs := "FAT32", dry_run := false }
        (some 64000000000) ⟨fun _ => ⟨0, "", ""⟩⟩ =
      (Except.error "FAT32 selezionato ma la capacità supera 32 GB. Usa exFAT o AUTO.",
       []) :=
  ⟨rfl, fun s hs => by cases hs; decide, rfl,
   gui_fat32_oversize_rejected_before_commands
     { disk := 3, fs := "FAT32", dry_run := false } (some 64000000000)
     ⟨fun _ => ⟨0, "", ""⟩⟩ none rfl (fun s hs => by cases hs; decide) rfl⟩

/-! ### C5: camera-compatible resolution -/

/-- The result actually produced by the camera-compatible explicit-exFAT
run on the 16 GiB disk. -/
def c5expected : PipelineResult :=
  { disk := 3, size := 17179869184, bus_type := "USB",
    friendly_name := "SDHC", unique_id := "", fs := "EXFAT", style := "MBR",
    label := "GOPRO", cluster := none, quick := true, wipe := "metadata",
    camera_compat := true, dry_run := false,
    steps := ["dismount_volumes", "clear_and_init", "create_partition_and_format"],
    drive_letter := some "E", verify := some "OK", status := some "OK" }

/-- C5 counterexample: in the terminal pipeline the camera-compatible flag
affects only label sanitization — a camera-compatible request that names
exFAT on a 16 GiB disk (well under 32 GiB) keeps `fs="EXFAT"` and leaves
the cluster at `DEFAULT`, so neither FAT32 nor the 32 KiB cluster is
forced. -/
theorem camera_compat_ignored_by_terminal_policy :
    run_format_pipeline c5args c5exec "" =
      (Except.ok c5expected,
       [Cmd.dismount 3, Cmd.clearInit 3 "MBR",
        Cmd.createFormat 3 "EXFAT" "GOPRO" none true, Cmd.verifyVol "E"]) ∧
    c5args.camera_compat = true ∧
    disk3mid.size ≤ 32 * 1024 * 1024 * 1024 ∧
    c5expected.fs ≠ "FAT32" ∧ c5expected.cluster ≠ some 32768 :=
  ⟨rfl, rfl, by decide, by decide, by decide⟩

/-- C5 amended, GUI half: in the GUI worker a camera-compatible request
with a known size of at most 32 GiB always resolves to FAT32 with a forced
32 KiB cluster, whatever filesystem or cluster label was requested. -/
theorem gui_camera_forces_fat32_and_32k_cluster
    (fs0 cluster_label : String) (s : Nat)
    (hs : s ≤ 32 * 1024 * 1024 * 1024) :
    gui_policy fs0 true cluster_label (some s) = Except.ok ("FAT32", some 32768) := by
  have h2 : ¬ (32 * 1024 * 1024 * 1024 < s) := by omega
  unfold gui_policy gui_cluster_resolve gui_fs_resolve
  simp [hs, h2]

/-- C5 witness: the GUI camera theorem applied to a request that names NTFS
with the `"64 KB"` cluster label on a 1 GB disk. -/
theorem gui_camera_forces_fat32_and_32k_cluster_witness :
    (1000000000 : Nat) ≤ 32 * 1024 * 1024 * 1024 ∧
    gui_policy "NTFS" true "64 KB" (some 1000000000) =
      Except.ok ("FAT32", some 32768) :=
  ⟨by decide, gui_camera_forces_fat32_and_32k_cluster "NTFS" "64 KB" 1000000000 (by decide)⟩

/-! ### C7: dismount failures -/

/-- The result actually produced when the dismount script exits 1. -/
def c7expected : PipelineResult :=
  { disk := 3, size := 32000000000, bus_type := "USB",
    friendly_name := "SD Card", unique_id := "", fs := "FAT32",
    style := "MBR", label := "DATA", cluster := none, quick := true,
    wipe := "metadata", camera_compat := false, dry_run := false,
    steps := [], status := some "ERROR", error := some "Access is denied" }

/-- C7 counterexample: when the dismount command exits non-zero the
`PSError` raised by `run_ps` is not suppressed — the run aborts with
`status=ERROR`, `steps=[]`, and no destructive command is ever spawned
(the trace contains only the failed dismount). -/
theorem dismount_failure_aborts_the_run :
    run_format_pipeline c7args c7exec "" =
      (Except.ok c7expected, [Cmd.dismount 3]) ∧
    c7expected.steps = [] ∧ c7expected.status = some "ERROR" :=
  ⟨rfl, rfl, rfl⟩

/-- C7 amended: dismount failures are suppressed only inside the PowerShell
script (per-volume `try/catch` with `-ErrorAction SilentlyContinue`); at
the Python layer a dismount command that exits non-zero raises `PSError`,
which aborts the run with `status=ERROR` and `steps=[]` before any
destructive step executes — the trace ends at the failed dismount. -/
theorem dismount_failure_skips_destructive_steps
    (args : Args) (ex : Executor) (confInput : String) (target : DiskRecord)
    (cluster : Option Nat)
    (hfind : (list_disks ex args.dry_run).find? (fun d => d.number == args.disk) =
      some target)
    (hsafe : ensure_safe_target target = Except.ok ())
    (hcl : resolveCluster args.cluster (resolve_fs args.fs target.size)
      target.size = Except.ok cluster)
    (hyes : args.yes = true)
    (hdry : args.dry_run = false)
    (hrc : (ex.respond (Cmd.dismount target.number)).rc ≠ 0) :
    ∃ r, run_format_pipeline args ex confInput =
        (Except.ok r, [Cmd.dismount target.number]) ∧
      r.steps = [] ∧ r.status = some "ERROR" ∧
      r.error = some (psErrMsg (ex.respond (Cmd.dismount target.number)).stderr) := by
  unfold run_format_pipeline
  dsimp only
  rw [hfind]
  dsimp only
  rw [hsafe]
  dsimp only
  rw [hcl]
  dsimp only
  rw [if_neg (by simp [hyes])]
  unfold pipelineTry dismount_volumes run_ps
  rw [hdry]
  dsimp only
  rw [if_neg (by simp), if_pos hrc]
  exact ⟨_, rfl, rfl, rfl, rfl⟩

/-- C7 witness: the abort theorem applied to the concrete failing-dismount
executor. -/
theorem dismount_failure_skips_destructive_steps_witness :
    (list_disks c7exec c7args.dry_run).find? (fun d => d.number == c7args.disk) =
      some disk3 ∧
    ensure_safe_target disk3 = Except.ok () ∧
    c7args.yes = true ∧ c7args.dry_run = false ∧
    (c7exec.respond (Cmd.dismount disk3.number)).rc ≠ 0 ∧
    ∃ r, run_format_pipeline c7args c7exec "" =
        (Except.ok r, [Cmd.dismount disk3.number]) ∧
      r.steps = [] ∧ r.status = some "ERROR" ∧
      r.error = some (psErrMsg (c7exec.respond (Cmd.dismount disk3.number)).stderr) :=
  ⟨rfl, rfl, rfl, rfl, by decide,
   dismount_failure_skips_destructive_steps c7args c7exec "" disk3 none
     rfl rfl rfl rfl rfl (by decide)⟩

/-! ### C9: the status/error invariant -/

/-- Any string starting with a nonempty literal is nonempty. -/
theorem append_ne_empty_left (s t : String) (h : s ≠ "") : s ++ t ≠ "" := by
  intro he
  apply h
  have hd : s.data ++ t.data = [] := congrArg String.data he
  have h1 : s.data = [] := (List.append_eq_nil.mp hd).1
  cases s
  cases h1
  rfl

/-- `PSError` messages are never empty: an empty (stripped) stderr falls
back to `"PowerShell error"`. -/
theorem psErrMsg_ne_empty (stderr : String) : psErrMsg stderr ≠ "" := by
  unfold psErrMsg
  dsimp only
  split
  · decide
  · assumption

/-- `run_ps` only raises nonempty messages. -/
theorem run_ps_error_ne_empty (c : Cmd) (dry : Bool) (ex : Executor)
    (e : String) (t : List Cmd) (h : run_ps c dry ex = (Except.error e, t)) :
    e ≠ "" := by
  unfold run_ps at h
  split at h
  · simp at h
  · dsimp only at h
    split at h
    · obtain ⟨h1, -⟩ := Prod.mk.injEq .. ▸ h
      obtain rfl := (Except.error.injEq .. ▸ h1.symm)
      exact psErrMsg_ne_empty _
    · simp at h

/-- `clear_and_init` only raises nonempty messages. -/
theorem clear_and_init_error_ne_empty (n : Nat) (style wipe : String)
    (dry : Bool) (ex : Executor) (e : String) (t : List Cmd)
    (h : clear_and_init n style wipe dry ex = (Except.error e, t)) : e ≠ "" := by
  unfold clear_and_init at h
  split at h
  · split at h
    · rename_i heq
      obtain ⟨h1, -⟩ := Prod.mk.injEq .. ▸ h
      obtain rfl := (Except.error.injEq .. ▸ h1.symm)
      exact run_ps_error_ne_empty _ _ _ _ _ heq
    · split at h
      · rename_i heq
        obtain ⟨h1, -⟩ := Prod.mk.injEq .. ▸ h
        obtain rfl := (Except.error.injEq .. ▸ h1.symm)
        exact run_ps_error_ne_empty _ _ _ _ _ heq
      · simp at h
  · split at h
    · rename_i heq
      obtain ⟨h1, -⟩ := Prod.mk.injEq .. ▸ h
      obtain rfl := (Except.error.injEq .. ▸ h1.symm)
      exact run_ps_error_ne_empty _ _ _ _ _ heq
    · simp at h

/-- `parseDriveLetter` only raises the `IndexError` message. -/
theorem parseDriveLetter_error_ne_empty (stdout e : String)
    (h : parseDriveLetter stdout = Except.error e) : e ≠ "" := by
  unfold parseDriveLetter at h
  split at h
  · simp at h
  · split at h
    · obtain rfl := (Except.error.injEq .. ▸ h.symm)
      decide
    · simp at h

/-- `create_partition_and_format` only raises nonempty messages. -/
theorem create_error_ne_empty (n : Nat) (fs label : String)
    (cluster : Option Nat) (quick dry : Bool) (ex : Executor) (e : String)
    (t : List Cmd)
    (h : create_partition_and_format n fs label cluster quick dry ex =
      (Except.error e, t)) : e ≠ "" := by
  unfold create_partition_and_format at h
  split at h
  · rename_i heq
    obtain ⟨h1, -⟩ := Prod.mk.injEq .. ▸ h
    obtain rfl := (Except.error.injEq .. ▸ h1.symm)
    exact run_ps_error_ne_empty _ _ _ _ _ heq
  · obtain ⟨h1, -⟩ := Prod.mk.injEq .. ▸ h
    exact parseDriveLetter_error_ne_empty _ _ h1

/-- `verify_volume` only raises nonempty messages. -/
theorem verify_volume_error_ne_empty (dl fs label : String) (dry : Bool)
    (ex : Executor) (e : String) (t : List Cmd)
    (h : verify_volume dl fs label dry ex = (Except.error e, t)) : e ≠ "" := by
  unfold verify_volume at h
  split at h
  · simp at h
  · split at h
    · rename_i heq
      obtain ⟨h1, -⟩ := Prod.mk.injEq .. ▸ h
      obtain rfl := (Except.error.injEq .. ▸ h1.symm)
      exact run_ps_error_ne_empty _ _ _ _ _ heq
    · dsimp only at h
      split at h <;> simp at h

/-- The returned-result invariant: `status` is `"OK"` with no error key, or
`"ERROR"` with a nonempty error message. -/
def resultOkErr (r : PipelineResult) : Prop :=
  (r.status = some "OK" ∧ r.error = none) ∨
  (r.status = some "ERROR" ∧ ∃ m, r.error = some m ∧ m ≠ "")

/-- `ioAndFinish` establishes the invariant from an error-free partial
result. -/
theorem ioAndFinish_invariant (args : Args) (ex : Executor)
    (r : PipelineResult) (acc : List Cmd) (h : r.error = none) :
    resultOkErr (ioAndFinish args ex r acc).1 := by
  unfold ioAndFinish
  dsimp only
  split
  · split
    · exact Or.inl ⟨rfl, h⟩
    · exact Or.inr ⟨rfl, _, rfl, append_ne_empty_left _ _ (by decide)⟩
  · exact Or.inl ⟨rfl, h⟩

/-- `pipelineTry` establishes the invariant from an error-free initial
result. -/
theorem pipelineTry_invariant (args : Args) (ex : Executor) (n : Nat)
    (fs label : String) (cluster : Option Nat) (style : String)
    (r0 : PipelineResult) (h : r0.error = none) :
    resultOkErr (pipelineTry args ex n fs label cluster style r0).1 := by
  unfold pipelineTry
  split
  · rename_i e t heq
    exact Or.inr ⟨rfl, e, rfl,
      run_ps_error_ne_empty _ _ _ _ _ heq⟩
  · rename_i tA heq
    try dsimp only
    split
    · rename_i e t heq2
      exact Or.inr ⟨rfl, e, rfl, clear_and_init_error_ne_empty _ _ _ _ _ _ _ heq2⟩
    · rename_i tB heq2
      try dsimp only
      split
      · rename_i e t heq3
        exact Or.inr ⟨rfl, e, rfl, create_error_ne_empty _ _ _ _ _ _ _ _ _ heq3⟩
      · rename_i dl tC heq3
        try dsimp only
        split
        · exact ioAndFinish_invariant _ _ _ _ (by simp [addStep, h])
        · split
          · rename_i e t heq4
            exact Or.inr ⟨rfl, e, rfl,
              verify_volume_error_ne_empty _ _ _ _ _ _ _ heq4⟩
          · rename_i ok tD heq4
            try dsimp only
            split
            · exact ioAndFinish_invariant _ _ _ _ (by simp [addStep, h])
            · exact Or.inr ⟨rfl, _, rfl, by decide⟩

/-- C9: every `PipelineResult` actually returned by `run_format_pipeline`
has `status` set, `status=ERROR` exactly when a nonempty `error` is
recorded, and `status=OK` only with no error key — the partially populated
result of a failed step is returned (as `Except.ok`), not discarded. -/
theorem pipeline_result_status_iff_error (args : Args) (ex : Executor)
    (confInput : String) (r : PipelineResult) (trace : List Cmd)
    (h : run_format_pipeline args ex confInput = (Except.ok r, trace)) :
    (r.status = some "ERROR" ↔ ∃ m, r.error = some m ∧ m ≠ "") ∧
    (r.status = some "OK" → r.error = none) ∧
    (r.status = some "OK" ∨ r.status = some "ERROR") := by
  have hr : resultOkErr r := by
    unfold run_format_pipeline at h
    dsimp only at h
    split at h
    · simp at h
    · split at h
      · simp at h
      · try dsimp only at h
        split at h
        · simp at h
        · try dsimp only at h
          split at h
          · simp at h
          · obtain ⟨h1, -⟩ := Prod.mk.injEq .. ▸ h
            obtain rfl := (Except.ok.injEq .. ▸ h1.symm)
            exact pipelineTry_invariant _ _ _ _ _ _ _ _ rfl
  rcases hr with ⟨h1, h2⟩ | ⟨h1, m, h2, h3⟩
  · refine ⟨?_, fun _ => h2, Or.inl h1⟩
    rw [h1, h2]
    simp
  · refine ⟨?_, ?_, Or.inr h1⟩
    · rw [h1, h2]
      simp only [Option.some.injEq]
      constructor
      · intro _
        exact ⟨m, rfl, h3⟩
      · intro _
        trivial
    · rw [h1]
      intro hcon
      simp at hcon

/-- C9 witness: the invariant theorem applied to the §8 scenario run. -/
theorem pipeline_result_status_iff_error_witness :
    run_format_pipeline c6args c6exec "" =
      (Except.ok c6expected,
       [Cmd.dismount 3, Cmd.clearInit 3 "MBR",
        Cmd.createFormat 3 "FAT32" "SD_CARD" none true, Cmd.verifyVol "E"]) ∧
    ((c6expected.status = some "ERROR" ↔
        ∃ m, c6expected.error = some m ∧ m ≠ "") ∧
      (c6expected.status = some "OK" → c6expected.error = none) ∧
      (c6expected.status = some "OK" ∨ c6expected.status = some "ERROR")) :=
  ⟨rfl, pipeline_result_status_iff_error c6args c6exec "" c6expected _ rfl⟩

/-! ### C8: idempotence analysis of `sanitize_label` -/

/-- `dropWhile` is the identity when the head does not match. -/
theorem dropWhile_eq_self_of_head (p : Char → Bool) (l : List Char)
    (h : ∀ c, l.head? = some c → p c = false) : l.dropWhile p = l := by
  cases l with
  | nil => rfl
  | cons c t =>
    rw [List.dropWhile_cons, h c rfl]
    simp

/-- `stripB` is the identity on lists whose two ends do not match `p`. -/
theorem stripB_eq_self (p : Char → Bool) (l : List Char)
    (hh : ∀ c, l.head? = some c → p c = false)
    (hl : ∀ c, l.getLast? = some c → p c = false) : stripB p l = l := by
  unfold stripB stripL stripR
  rw [dropWhile_eq_self_of_head p l hh]
  rw [dropWhile_eq_self_of_head p l.reverse (fun c hc => hl c (by rwa [List.head?_reverse] at hc))]
  exact List.reverse_reverse l

/-- The head of a `dropWhile` never matches `p`. -/
theorem head_stripL (p : Char → Bool) (l : List Char) :
    ∀ c, (stripL p l).head? = some c → p c = false := by
  induction l with
  | nil => intro c hc; simp [stripL] at hc
  | cons a t ih =>
    intro c hc
    rw [stripL, List.dropWhile_cons] at hc
    by_cases hpa : p a = true
    · rw [if_pos hpa] at hc
      exact ih c hc
    · rw [if_neg hpa] at hc
      simp only [List.head?_cons, Option.some.injEq] at hc
      subst hc
      cases hb : p a with
      | false => rfl
      | true => exact absurd hb hpa

/-- `stripR` yields a prefix of its argument. -/
theorem stripR_isPre (p : Char → Bool) (l : List Char) : stripR p l <+: l := by
  have h2 : (stripR p l).reverse <:+ l.reverse := by
    unfold stripR
    rw [List.reverse_reverse]
    exact List.dropWhile_suffix p
  exact List.reverse_suffix.mp h2

/-- A nonempty prefix has the same head. -/
theorem head_of_isPre (l1 l2 : List Char) (h : l1 <+: l2) (c : Char)
    (hc : l1.head? = some c) : l2.head? = some c := by
  obtain ⟨t, rfl⟩ := h
  cases l1 with
  | nil => simp at hc
  | cons a t1 => simpa using hc

/-- The head of a `stripB` never matches `p`. -/
theorem head_stripB (p : Char → Bool) (l : List Char) (c : Char)
    (hc : (stripB p l).head? = some c) : p c = false :=
  head_stripL p l c (head_of_isPre _ _ (stripR_isPre p (stripL p l)) c hc)

/-- The last element of a `stripR` never matches `p`. -/
theorem last_stripR (p : Char → Bool) (l : List Char) (c : Char)
    (hc : (stripR p l).getLast? = some c) : p c = false := by
  rw [← List.head?_reverse] at hc
  unfold stripR at hc
  rw [List.reverse_reverse] at hc
  exact head_stripL p l.reverse c hc

/-- The last element of a `stripB` never matches `p`. -/
theorem last_stripB (p : Char → Bool) (l : List Char) (c : Char)
    (hc : (stripB p l).getLast? = some c) : p c = false :=
  last_stripR p (stripL p l) c hc

/-- `stripB` yields an infix (so a sublist) of its argument. -/
theorem stripB_isInf (p : Char → Bool) (l : List Char) : stripB p l <:+: l := by
  have h1 : stripB p l <+: stripL p l := stripR_isPre p (stripL p l)
  have h2 : stripL p l <:+ l := List.dropWhile_suffix p
  exact h1.isInfix.trans h2.isInfix

/-- Mapping a function that fixes every element is the identity. -/
theorem map_eq_self_of_fixes (f : Char → Char) (l : List Char)
    (h : ∀ c ∈ l, f c = c) : l.map f = l := by
  induction l with
  | nil => rfl
  | cons c t ih =>
    rw [List.map_cons, h c (by simp), ih (fun a ha => h a (by simp [ha]))]

/-- Heads of `collapseWs`: a whitespace head becomes a space, any other
head survives. -/
theorem collapseWs_head (c : Char) (t : List Char) :
    (collapseWs (c :: t)).head? =
      some (if wsB c then Char.ofNat 32 else c) := by
  induction t generalizing c with
  | nil =>
    simp only [collapseWs]
    split <;> simp
  | cons c2 t2 ih =>
    simp only [collapseWs]
    by_cases h12 : (wsB c && wsB c2) = true
    · rw [if_pos h12, ih c2]
      obtain ⟨h1, h2⟩ := Bool.and_eq_true_iff.mp h12
      rw [h1, h2]
      simp
    · rw [if_neg h12]
      simp

/-- `collapseWs` never produces two adjacent whitespace characters. -/
theorem collapseWs_chain (l : List Char) :
    List.Chain' (fun a b => ¬(wsB a = true ∧ wsB b = true)) (collapseWs l) := by
  induction l with
  | nil => simp [collapseWs]
  | cons c t ih =>
    cases t with
    | nil =>
      simp only [collapseWs]
      split <;> simp
    | cons c2 t2 =>
      simp only [collapseWs]
      by_cases h12 : (wsB c && wsB c2) = true
      · rw [if_pos h12]
        exact ih
      · rw [if_neg h12]
        rw [List.chain'_cons']
        refine ⟨?_, ih⟩
        intro y hy
        rw [Option.mem_def, collapseWs_head c2 t2, Option.some.injEq] at hy
        subst hy
        by_cases h1 : wsB c = true
        · have h2 : wsB c2 = false := by
            cases hq : wsB c2 with
            | false => rfl
            | true => exact absurd (by simp [h1, hq]) h12
          rw [if_pos h1, if_neg (by rw [h2]; exact Bool.false_ne_true)]
          intro hcon
          rw [h2] at hcon
          exact Bool.false_ne_true hcon.2
        · rw [if_neg h1]
          intro hcon
          exact h1 hcon.1
/-- `collapseWs` fixes lists with no adjacent whitespace whose only
whitespace character is the plain space. -/
theorem collapseWs_eq_self (l : List Char)
    (hch : List.Chain' (fun a b => ¬(wsB a = true ∧ wsB b = true)) l)
    (hsp : ∀ c ∈ l, wsB c = true → c = Char.ofNat 32) :
    collapseWs l = l := by
  induction l with
  | nil => rfl
  | cons c t ih =>
    cases t with
    | nil =>
      simp only [collapseWs]
      by_cases h : wsB c = true
      · rw [if_pos h, hsp c (by simp) h]
      · rw [if_neg h]
    | cons c2 t2 =>
      simp only [collapseWs]
      have hR := (List.chain'_cons.mp hch).1
      have h12 : ¬((wsB c && wsB c2) = true) := by
        intro hcon
        exact hR (Bool.and_eq_true_iff.mp hcon)
      rw [if_neg h12]
      have htail : collapseWs (c2 :: t2) = c2 :: t2 :=
        ih (List.chain'_cons.mp hch).2 (fun a ha hw => hsp a (by simp [ha]) hw)
      rw [htail]
      by_cases h : wsB c = true
      · rw [if_pos h, hsp c (by simp) h]
      · rw [if_neg h]

/-- Arithmetic reading of `camOk`. -/
theorem camOk_arith (c : Char) (h : camOk c = true) :
    (65 ≤ c.toNat ∧ c.toNat ≤ 90) ∨ (48 ≤ c.toNat ∧ c.toNat ≤ 57) ∨
    c.toNat = 32 ∨ c.toNat = 95 := by
  simp only [camOk, Bool.or_eq_true, Bool.and_eq_true, decide_eq_true_eq] at h
  tauto

/-- Camera-valid characters are not quotes. -/
theorem camOk_quote (c : Char) (h : camOk c = true) : quoteB c = false := by
  have ha := camOk_arith c h
  simp only [quoteB, Bool.or_eq_true, decide_eq_true_eq]
  simp only [Bool.or_eq_false_iff, decide_eq_false_iff_not]
  omega

/-- Camera-valid characters are fixed by upper-casing. -/
theorem upC_fixes_camOk (c : Char) (h : camOk c = true) : upC c = c := by
  have ha := camOk_arith c h
  unfold upC
  rw [if_neg]
  simp only [Bool.and_eq_true, decide_eq_true_eq, not_and]
  intro h97
  omega

/-- The only whitespace camera-valid character is the space. -/
theorem camOk_ws (c : Char) (h : camOk c = true) (hw : wsB c = true) :
    c = Char.ofNat 32 := by
  have ha := camOk_arith c h
  have hb : c.toNat = 32 := by
    simp only [wsB, Bool.or_eq_true, decide_eq_true_eq] at hw
    omega
  calc c = Char.ofNat c.toNat := (Char.ofNat_toNat c).symm
    _ = Char.ofNat 32 := by rw [hb]

/-- Every character produced by the camera substitution map is
camera-valid. -/
theorem camMap_mem (raw : List Char) (c : Char)
    (hc : c ∈ raw.map (fun c => let u := upC c; if camOk u then u else Char.ofNat 95)) :
    camOk c = true := by
  obtain ⟨a, -, rfl⟩ := List.mem_map.mp hc
  dsimp only
  split
  · assumption
  · decide

/-- Characters of `collapseWs l` are spaces or characters of `l`. -/
theorem collapseWs_mem (l : List Char) (c : Char) (hc : c ∈ collapseWs l) :
    c = Char.ofNat 32 ∨ c ∈ l := by
  induction l with
  | nil => simp [collapseWs] at hc
  | cons a t ih =>
    cases t with
    | nil =>
      simp only [collapseWs] at hc
      split at hc
      · simp only [List.mem_singleton] at hc
        exact Or.inl hc
      · simp only [List.mem_singleton] at hc
        exact Or.inr (by simp [hc])
    | cons a2 t2 =>
      simp only [collapseWs] at hc
      split at hc
      · rcases ih hc with h' | h'
        · exact Or.inl h'
        · exact Or.inr (List.mem_cons_of_mem a h')
      · rcases List.mem_cons.mp hc with h' | h'
        · by_cases hws : wsB a = true
          · rw [if_pos hws] at h'
            exact Or.inl h'
          · rw [if_neg hws] at h'
            exact Or.inr (by simp [h'])
        · rcases ih h' with h'' | h''
          · exact Or.inl h''
          · exact Or.inr (List.mem_cons_of_mem a h'')

/-- The head of a nonzero take is the head of the list. -/
theorem head?_take_ne (l : List Char) (n : Nat) (hn : n ≠ 0) :
    (l.take n).head? = l.head? := by
  cases l with
  | nil => simp
  | cons a t =>
    cases n with
    | zero => exact absurd rfl hn
    | succ m => simp

/-- Shape of the camera branch of `sanitize_label`: only camera-valid
characters, no adjacent whitespace, no leading whitespace, at most 11
characters, never empty. -/
theorem sanitizeCam_props (x : List Char) :
    (∀ c ∈ sanitizeL x true, camOk c = true) ∧
    List.Chain' (fun a b => ¬(wsB a = true ∧ wsB b = true)) (sanitizeL x true) ∧
    (∀ c, (sanitizeL x true).head? = some c → wsB c = false) ∧
    (sanitizeL x true).length ≤ 11 ∧ sanitizeL x true ≠ [] := by
  unfold sanitizeL
  rw [if_pos rfl]
  dsimp only
  split
  · refine ⟨by decide, ?_, ?_, by decide, by decide⟩
    · have hsd : sdCard = [Char.ofNat 83, Char.ofNat 68, Char.ofNat 95,
        Char.ofNat 67, Char.ofNat 65, Char.ofNat 82, Char.ofNat 68] := by decide
      rw [hsd]
      refine List.chain'_cons.mpr ⟨by decide, ?_⟩
      refine List.chain'_cons.mpr ⟨by decide, ?_⟩
      refine List.chain'_cons.mpr ⟨by decide, ?_⟩
      refine List.chain'_cons.mpr ⟨by decide, ?_⟩
      refine List.chain'_cons.mpr ⟨by decide, ?_⟩
      refine List.chain'_cons.mpr ⟨by decide, ?_⟩
      exact List.chain'_singleton _
    · intro c hc
      rw [show sdCard.head? = some (Char.ofNat 83) from rfl, Option.some.injEq] at hc
      subst hc
      decide
  · rename_i hne
    refine ⟨?_, ?_, ?_, List.length_take_le _ _, hne⟩
    · intro c hc
      have hc1 := List.take_subset _ _ hc
      have hc2 := ((stripB_isInf wsB _).sublist).subset hc1
      rcases collapseWs_mem _ c hc2 with h' | h'
      · rw [h']
        decide
      · exact camMap_mem _ c h'
    · have hch1 := collapseWs_chain
        (((stripB wsB x).filter (fun c => !quoteB c)).map
          (fun c => let u := upC c; if camOk u then u else Char.ofNat 95))
      have hch2 := List.Chain'.infix hch1 (stripB_isInf wsB _)
      exact List.Chain'.prefix hch2 ( List.take_prefix 11 _)
    · intro c hc
      rw [head?_take_ne _ 11 (by decide)] at hc
      exact head_stripB wsB _ c hc

/-- The camera branch of `sanitize_label` fixes every list that already
has its output shape and does not end in whitespace. -/
theorem sanitizeCam_fixed (y : List Char)
    (hmem : ∀ c ∈ y, camOk c = true)
    (hch : List.Chain' (fun a b => ¬(wsB a = true ∧ wsB b = true)) y)
    (hh : ∀ c, y.head? = some c → wsB c = false)
    (hl : ∀ c, y.getLast? = some c → wsB c = false)
    (hlen : y.length ≤ 11) (hne : y ≠ []) :
    sanitizeL y true = y := by
  have h1 : stripB wsB y = y := stripB_eq_self wsB y hh hl
  have h2 : y.filter (fun c => !quoteB c) = y :=
    List.filter_eq_self.mpr (fun a ha => by rw [camOk_quote a (hmem a ha)]; rfl)
  have h3 : y.map (fun c => let u := upC c; if camOk u then u else Char.ofNat 95) = y :=
    map_eq_self_of_fixes _ y (fun c hcm => by
      have hc := hmem c hcm
      dsimp only
      rw [upC_fixes_camOk c hc, if_pos hc])
  have h4 : collapseWs y = y :=
    collapseWs_eq_self y hch (fun c hcm hw => camOk_ws c (hmem c hcm) hw)
  have h5 : y.take 11 = y := List.take_of_length_le hlen
  unfold sanitizeL
  rw [if_pos rfl]
  dsimp only
  rw [h1, h2, h3, h4, h1, h5, if_neg hne]

/-- Arithmetic reading of `genOk`. -/
theorem genOk_arith (c : Char) (h : genOk c = true) :
    32 ≤ c.toNat ∧ c.toNat < 127 := by
  simp only [genOk, Bool.and_eq_true, decide_eq_true_eq] at h
  exact ⟨h.1.1, h.1.2⟩

/-- A printable character that is neither dot nor space is not
whitespace. -/
theorem genOk_not_ws (c : Char) (hg : genOk c = true) (hd : dotSpB c = false) :
    wsB c = false := by
  have ha := genOk_arith c hg
  have hd2 : ¬(c.toNat = 46 ∨ c.toNat = 32) := by
    intro hcon
    rcases hcon with h1 | h1 <;>
      simp [dotSpB, h1] at hd
  simp only [wsB, Bool.or_eq_false_iff, decide_eq_false_iff_not]
  omega

/-- Shape of the general branch of `sanitize_label`: printable non-reserved
non-quote characters, no leading dot or space, at most 32 characters, never
empty. -/
theorem sanitizeGen_props (x : List Char) :
    (∀ c ∈ sanitizeL x false, genOk c = true ∧ quoteB c = false) ∧
    (∀ c, (sanitizeL x false).head? = some c → dotSpB c = false) ∧
    (sanitizeL x false).length ≤ 32 ∧ sanitizeL x false ≠ [] := by
  unfold sanitizeL
  rw [if_neg Bool.false_ne_true]
  dsimp only
  split
  · refine ⟨by decide, ?_, by decide, by decide⟩
    intro c hc
    rw [show sdCard.head? = some (Char.ofNat 83) from rfl, Option.some.injEq] at hc
    subst hc
    decide
  · rename_i hne
    refine ⟨?_, ?_, List.length_take_le _ _, hne⟩
    · intro c hc
      have hc1 := List.take_subset _ _ hc
      have hc2 := ((stripB_isInf dotSpB _).sublist).subset hc1
      obtain ⟨hc3, hgen⟩ := List.mem_filter.mp hc2
      obtain ⟨-, hq⟩ := List.mem_filter.mp hc3
      refine ⟨hgen, ?_⟩
      cases hqb : quoteB c with
      | false => rfl
      | true => rw [hqb] at hq; simp at hq
    · intro c hc
      rw [head?_take_ne _ 32 (by decide)] at hc
      exact head_stripB dotSpB _ c hc

/-- The general branch of `sanitize_label` fixes every list that already
has its output shape and does not end in a dot or space. -/
theorem sanitizeGen_fixed (y : List Char)
    (hmem : ∀ c ∈ y, genOk c = true ∧ quoteB c = false)
    (hh : ∀ c, y.head? = some c → dotSpB c = false)
    (hl : ∀ c, y.getLast? = some c → dotSpB c = false)
    (hlen : y.length ≤ 32) (hne : y ≠ []) :
    sanitizeL y false = y := by
  have hwsh : ∀ c, y.head? = some c → wsB c = false := fun c hc =>
    genOk_not_ws c (hmem c (List.mem_of_mem_head? hc)).1 (hh c hc)
  have hwsl : ∀ c, y.getLast? = some c → wsB c = false := fun c hc =>
    genOk_not_ws c (hmem c (List.mem_of_mem_getLast? hc)).1 (hl c hc)
  have h1 : stripB wsB y = y := stripB_eq_self wsB y hwsh hwsl
  have h2 : y.filter (fun c => !quoteB c) = y :=
    List.filter_eq_self.mpr (fun a ha => by rw [(hmem a ha).2]; rfl)
  have h3 : y.filter genOk = y :=
    List.filter_eq_self.mpr (fun a ha => (hmem a ha).1)
  have h4 : stripB dotSpB y = y := stripB_eq_self dotSpB y hh hl
  have h5 : y.take 32 = y := List.take_of_length_le hlen
  unfold sanitizeL
  rw [if_neg Bool.false_ne_true]
  dsimp only
  rw [h1, h2, h3, h4, h5, if_neg hne]

/-- Conditional idempotence of `sanitizeL`: a second pass is the identity
whenever the first pass's output does not end in a character the second
pass would strip (a space, or for the general branch a dot). -/
theorem sanitizeL_idem_of_last (l : List Char) (c : Bool)
    (h : ∀ ch, (sanitizeL l c).getLast? = some ch →
      ch ≠ Char.ofNat 32 ∧ (c = false → ch ≠ Char.ofNat 46)) :
    sanitizeL (sanitizeL l c) c = sanitizeL l c := by
  cases c with
  | true =>
    obtain ⟨hmem, hch, hh, hlen, hne⟩ := sanitizeCam_props l
    apply sanitizeCam_fixed _ hmem hch hh ?_ hlen hne
    intro ch hch2
    have hm : ch ∈ sanitizeL l true := List.mem_of_mem_getLast? hch2
    have hcam := hmem ch hm
    have hne32 := (h ch hch2).1
    cases hw : wsB ch with
    | false => rfl
    | true => exact absurd (camOk_ws ch hcam hw) hne32
  | false =>
    obtain ⟨hmem, hh, hlen, hne⟩ := sanitizeGen_props l
    apply sanitizeGen_fixed _ hmem hh ?_ hlen hne
    intro ch hch2
    obtain ⟨h32, h46⟩ := h ch hch2
    have h46x := h46 rfl
    cases hd : dotSpB ch with
    | false => rfl
    | true =>
      simp only [dotSpB, Bool.or_eq_true, decide_eq_true_eq] at hd
      rcases hd with h1 | h1
      · refine absurd ?_ h46x
        calc ch = Char.ofNat ch.toNat := (Char.ofNat_toNat ch).symm
          _ = Char.ofNat 46 := by rw [h1]
      · refine absurd ?_ h32
        calc ch = Char.ofNat ch.toNat := (Char.ofNat_toNat ch).symm
          _ = Char.ofNat 32 := by rw [h1]

/-- C8 counterexample: `sanitize_label` is not idempotent — in camera mode
the 11-character truncation of `"ABCDEFGHIJ K"` ends in a space
(`"ABCDEFGHIJ "`), which a second application strips to `"ABCDEFGHIJ"`. -/
theorem sanitize_label_not_idempotent :
    sanitize_label (sanitize_label "ABCDEFGHIJ K" "FAT32" true) "FAT32" true ≠
      sanitize_label "ABCDEFGHIJ K" "FAT32" true := by decide

/-- C8 amended: `sanitize_label` is idempotent on every input whose first
sanitization does not end in a character a second pass would strip — a
space (code 32), or additionally a dot (code 46) in general mode; the
truncation to 11/32 characters is the only source of such endings. -/
theorem sanitize_label_idem_of_last (x fs1 fs2 : String) (c : Bool)
    (h : ∀ ch, (sanitize_label x fs1 c).data.getLast? = some ch →
      ch ≠ Char.ofNat 32 ∧ (c = false → ch ≠ Char.ofNat 46)) :
    sanitize_label (sanitize_label x fs1 c) fs2 c = sanitize_label x fs1 c := by
  have hl := sanitizeL_idem_of_last x.data c h
  exact congrArg (fun l => (⟨l⟩ : String)) hl

/-- C8 witness: the conditional idempotence theorem applied to `"HELLO"`
in camera mode, whose sanitization ends in `O`. -/
theorem sanitize_label_idem_of_last_witness :
    sanitize_label (sanitize_label "HELLO" "" true) "" true =
      sanitize_label "HELLO" "" true :=
  sanitize_label_idem_of_last "HELLO" "" "" true (by
    intro ch hch
    have h2 : (sanitize_label "HELLO" "" true).data.getLast? =
        some (Char.ofNat 79) := by decide
    rw [h2, Option.some.injEq] at hch
    subst hch
    exact ⟨by decide, fun hcon => absurd hcon (by decide)⟩)
